import Mathlib

/-
Verification of the terminal session lifecycle manager of the DiscrodDocker
repository against its natural-language specification.

The embedding models:
  * the token store of `database.py` (`store_terminal_token`,
    `get_terminal_token`, `delete_terminal_token`) as an association list
    keyed by container id, with timestamps as naturals;
  * the session manager of `terminal_service.py` (`launch_ttyd`,
    `get_or_launch_session`, `_watch_session`) as explicit state passing over
    a `World` holding the `active_sessions` dict, the set of live process
    ids, the terminate calls issued, and the spawn log; OS nondeterminism
    (free-port choice, readiness of the spawned process, success of
    `terminate`) enters through explicit oracle parameters;
  * the Flask handler `terminal` as a function from the request data and the
    same state to a `Resp`;
  * for the concurrency claims, a small-step interleaving semantics of
    `get_or_launch_session` (one shared-state access per step) together with
    the `_watch_session` exit watchers.
-/

namespace TerminalService

/-- Association-list lookup by key; models a Python dict read
(`active_sessions.get(cid)`, `SELECT ... WHERE container_id = ?`). -/
def lookupKey {α : Type} (k : String) : List (String × α) → Option α
  | [] => none
  | (k', v) :: t => if k' = k then some v else lookupKey k t

/-- Association-list removal of a key; models `dict.pop(cid, None)` and
`DELETE ... WHERE container_id = ?`. -/
def eraseKey {α : Type} (k : String) : List (String × α) → List (String × α)
  | [] => []
  | (k', v) :: t => if k' = k then eraseKey k t else (k', v) :: eraseKey k t

theorem lookupKey_cons_self {α : Type} (k : String) (v : α)
    (l : List (String × α)) : lookupKey k ((k, v) :: l) = some v := by
  simp [lookupKey]

theorem lookupKey_eraseKey_self {α : Type} (k : String)
    (l : List (String × α)) : lookupKey k (eraseKey k l) = none := by
  induction l with
  | nil => simp [eraseKey, lookupKey]
  | cons p t ih =>
    obtain ⟨k', v⟩ := p
    by_cases h : k' = k
    · simp [eraseKey, h, ih]
    · simp [eraseKey, lookupKey, h, ih]

/-! ## Token store (`database.py`) -/

/-- Row of the `terminal_tokens` table: the secret and the absolute expiry
timestamp. -/
structure TokenRecord where
  token : String
  expires_at : Nat
deriving DecidableEq, Repr

/-- The `terminal_tokens` table: container id is the primary key. -/
abbrev TokenStore := List (String × TokenRecord)

/-- Model of `ContainerDB.delete_terminal_token`. -/
def delete_terminal_token (store : TokenStore) (cid : String) : TokenStore :=
  eraseKey cid store

/-- Model of `ContainerDB.store_terminal_token`: upsert
(`INSERT ... ON CONFLICT(container_id) DO UPDATE`) of the record
`(cid, token, now + expiry)`. -/
def store_terminal_token (store : TokenStore) (cid tok : String)
    (now expiry : Nat) : TokenStore :=
  (cid, ⟨tok, now + expiry⟩) :: eraseKey cid store

/-- Model of `ContainerDB.get_terminal_token`: returns the stored record if
present and not expired; an expired record (`expires_at < now`) is deleted
and `none` is returned. Returns the possibly-updated store alongside. -/
def get_terminal_token (store : TokenStore) (cid : String) (now : Nat) :
    Option TokenRecord × TokenStore :=
  match lookupKey cid store with
  | none => (none, store)
  | some r =>
    if r.expires_at < now then (none, delete_terminal_token store cid)
    else (some r, store)

/-- The spec's `Validate(containerID, secret)`: the composition the gateway
performs at `terminal_service.py` lines 123-125 — fetch via
`get_terminal_token`, then require the stored secret to equal the presented
one. Returns the validation verdict and the resulting store. -/
def validate (store : TokenStore) (cid secret : String) (now : Nat) :
    Bool × TokenStore :=
  let res := get_terminal_token store cid now
  match res.1 with
  | none => (false, res.2)
  | some r => (if r.token = secret then true else false, res.2)

/-! ## Claims C2 and C3: token validation and overwrite -/

/-- Concrete store used to refute the strict-expiry reading of C2. -/
def c2Store : TokenStore := [("c", ⟨"s", 5⟩)]

/-- C2 counterexample: the claim says validation returns true only when the
current time is strictly before `expiresAt`, and that a secret mismatch has
no side effect on the store. On the code, at `now = expires_at = 5` the
record is not treated as expired (`expires_at < now` is false) and the
matching secret validates **true**; moreover a mismatching secret presented
against an expired record still deletes the record (side effect). -/
theorem c2_strict_expiry_counterexample :
    (validate c2Store "c" "s" 5).1 = true ∧ ¬ ((5 : Nat) < 5) ∧
    (validate c2Store "c" "wrong" 10).2 = [] ∧ c2Store ≠ [] := by
  decide

/-- C2 (amended): validation returns true iff a record exists, the presented
secret equals the stored secret, and `now ≤ expiresAt` (valid through the
expiry instant; expired only when `expiresAt < now`). If the stored record
is expired it is deleted before returning false, regardless of the presented
secret. If no record exists, or the secret mismatches against an unexpired
record, validation returns false with no change to the store. -/
theorem c2_validate_amended (store : TokenStore) (cid secret : String)
    (now : Nat) :
    ((validate store cid secret now).1 = true ↔
      ∃ r, lookupKey cid store = some r ∧ r.token = secret ∧
        now ≤ r.expires_at)
    ∧ (∀ r, lookupKey cid store = some r → r.expires_at < now →
        validate store cid secret now = (false, delete_terminal_token store cid))
    ∧ (lookupKey cid store = none →
        validate store cid secret now = (false, store))
    ∧ (∀ r, lookupKey cid store = some r → ¬ r.expires_at < now →
        r.token ≠ secret → validate store cid secret now = (false, store)) := by
  refine ⟨?_, ?_, ?_, ?_⟩
  · constructor
    · intro h
      unfold validate get_terminal_token at h
      cases hl : lookupKey cid store with
      | none => rw [hl] at h; simp at h
      | some r =>
        rw [hl] at h
        by_cases hexp : r.expires_at < now
        · simp [hexp] at h
        · simp [hexp] at h
          by_cases htok : r.token = secret
          · exact ⟨r, rfl, htok, Nat.le_of_not_lt hexp⟩
          · simp [htok] at h
    · rintro ⟨r, hl, htok, hle⟩
      unfold validate get_terminal_token
      rw [hl]
      simp [Nat.not_lt_of_le hle, htok]
  · intro r hl hexp
    unfold validate get_terminal_token
    rw [hl]
    simp [hexp]
  · intro hl
    unfold validate get_terminal_token
    rw [hl]
  · intro r hl hexp htok
    unfold validate get_terminal_token
    rw [hl]
    simp [hexp, htok]

/-- Witness for `c2_validate_amended` at a concrete store and time. -/
theorem c2_validate_amended_witness :
    ((validate [("k", ⟨"x", 9⟩)] "k" "x" 4).1 = true ↔
      ∃ r, lookupKey "k" [("k", (⟨"x", 9⟩ : TokenRecord))] = some r ∧
        r.token = "x" ∧ 4 ≤ r.expires_at)
    ∧ (∀ r, lookupKey "k" [("k", (⟨"x", 9⟩ : TokenRecord))] = some r →
        r.expires_at < 4 →
        validate [("k", ⟨"x", 9⟩)] "k" "x" 4 =
          (false, delete_terminal_token [("k", ⟨"x", 9⟩)] "k"))
    ∧ (lookupKey "k" [("k", (⟨"x", 9⟩ : TokenRecord))] = none →
        validate [("k", ⟨"x", 9⟩)] "k" "x" 4 = (false, [("k", ⟨"x", 9⟩)]))
    ∧ (∀ r, lookupKey "k" [("k", (⟨"x", 9⟩ : TokenRecord))] = some r →
        ¬ r.expires_at < 4 → r.token ≠ "x" →
        validate [("k", ⟨"x", 9⟩)] "k" "x" 4 = (false, [("k", ⟨"x", 9⟩)])) :=
  c2_validate_amended [("k", ⟨"x", 9⟩)] "k" "x" 4

/-- C3: issuing a second token for a container replaces the stored record
(one active token per container): the old secret validates false immediately
after the new issue (at any query time), the new secret validates true at
any time up to its own expiry, and a successful validation leaves the store
unchanged (tokens are not consumed by use). -/
theorem c3_token_overwrite (store : TokenStore) (cid oldTok newTok : String)
    (now1 ttl1 now2 ttl2 : Nat)
    (hne : oldTok ≠ newTok) :
    lookupKey cid
        (store_terminal_token (store_terminal_token store cid oldTok now1 ttl1)
          cid newTok now2 ttl2) = some ⟨newTok, now2 + ttl2⟩
    ∧ (∀ t : Nat,
        (validate (store_terminal_token
            (store_terminal_token store cid oldTok now1 ttl1)
            cid newTok now2 ttl2) cid oldTok t).1 = false)
    ∧ (∀ t : Nat, t ≤ now2 + ttl2 →
        validate (store_terminal_token
            (store_terminal_token store cid oldTok now1 ttl1)
            cid newTok now2 ttl2) cid newTok t =
          (true, store_terminal_token
            (store_terminal_token store cid oldTok now1 ttl1)
            cid newTok now2 ttl2)) := by
  refine ⟨?_, ?_, ?_⟩
  · simp [store_terminal_token, lookupKey_cons_self]
  · intro t
    unfold validate get_terminal_token
    rw [show lookupKey cid
        (store_terminal_token (store_terminal_token store cid oldTok now1 ttl1)
          cid newTok now2 ttl2) = some ⟨newTok, now2 + ttl2⟩ by
      simp [store_terminal_token, lookupKey_cons_self]]
    by_cases hexp : now2 + ttl2 < t
    · simp [hexp]
    · simp [hexp, Ne.symm hne]
  · intro t ht
    unfold validate get_terminal_token
    rw [show lookupKey cid
        (store_terminal_token (store_terminal_token store cid oldTok now1 ttl1)
          cid newTok now2 ttl2) = some ⟨newTok, now2 + ttl2⟩ by
      simp [store_terminal_token, lookupKey_cons_self]]
    simp [Nat.not_lt_of_le ht]

/-- Witness for `c3_token_overwrite` on a concrete store and secrets. -/
theorem c3_token_overwrite_witness :
    lookupKey "c"
        (store_terminal_token (store_terminal_token [] "c" "old" 0 10)
          "c" "new" 3 10) = some ⟨"new", 13⟩
    ∧ (∀ t : Nat,
        (validate (store_terminal_token (store_terminal_token [] "c" "old" 0 10)
            "c" "new" 3 10) "c" "old" t).1 = false)
    ∧ (∀ t : Nat, t ≤ 13 →
        validate (store_terminal_token (store_terminal_token [] "c" "old" 0 10)
            "c" "new" 3 10) "c" "new" t =
          (true, store_terminal_token (store_terminal_token [] "c" "old" 0 10)
            "c" "new" 3 10)) := by
  have h := c3_token_overwrite [] "c" "old" "new" 0 10 3 10 (by decide)
  exact ⟨h.1, h.2.1, fun t ht => h.2.2 t ht⟩

/-! ## Session manager (`terminal_service.py`) -/

/-- Environment-derived configuration: `TTYD_PATH`, `TERMINAL_SHELL` and
`TERMINAL_SESSION_TIMEOUT`. -/
structure Config where
  ttydPath : String
  shell : String
  sessionTimeout : Nat
deriving DecidableEq, Repr

/-- One entry of `active_sessions`: the process handle (modelled by its id),
the bound port, and the `started_at` timestamp. -/
structure Session where
  pid : Nat
  port : Nat
  started_at : Nat
deriving DecidableEq, Repr

/-- Shared state of the service together with the relevant OS state:
the `active_sessions` dict, the ids of processes currently running
(`poll() is None`), the ids on which `terminate()` was called, the
`(pid, bound port)` of every spawned process, the log of spawn command
lines, and the id the next spawn will receive. -/
structure World where
  sessions : List (String × Session)
  alive : List Nat
  termd : List Nat
  procs : List (Nat × Nat)
  cmds : List (List String)
  nextPid : Nat
deriving DecidableEq, Repr

/-- A port choice is legitimate for `get_free_port` when no currently
running process has it bound: the OS only hands out ports that are free at
bind time. -/
def validFreePort (w : World) (p : Nat) : Prop :=
  ∀ pr ∈ w.procs, pr.1 ∈ w.alive → pr.2 ≠ p

instance (w : World) (p : Nat) : Decidable (validFreePort w p) := by
  unfold validFreePort; infer_instance

/-- The argv list built in `launch_ttyd`:
`[TTYD_PATH, "--port", str(port), "--once", "docker", "exec", "-it",
container_id, DEFAULT_SHELL]`. -/
def ttydCommand (cfg : Config) (port : Nat) (container_id : String) :
    List String :=
  [cfg.ttydPath, "--port", toString port, "--once", "docker", "exec", "-it",
    container_id, cfg.shell]

/-- Model of `launch_ttyd`: allocate the port the OS offered (`freePort`
oracle), spawn the process, register the session, then wait for readiness
(`ready` oracle for `wait_for_port`); on timeout terminate the process,
drop the registration and raise. On success the function returns
`active_sessions[container_id]` as the source does. -/
def launch_ttyd (cfg : Config) (w : World) (container_id : String)
    (now freePort : Nat) (ready : Bool) : Except String Session × World :=
  let port := freePort
  let pid := w.nextPid
  let w1 : World :=
    { w with
      nextPid := pid + 1
      alive := pid :: w.alive
      procs := (pid, port) :: w.procs
      cmds := ttydCommand cfg port container_id :: w.cmds
      sessions := (container_id, ⟨pid, port, now⟩) :: eraseKey container_id w.sessions }
  if ready then
    match lookupKey container_id w1.sessions with
    | some s => (.ok s, w1)
    | none => (.error "KeyError", w1)
  else
    (.error "Failed to start ttyd session",
      { w1 with
        termd := pid :: w1.termd
        sessions := eraseKey container_id w1.sessions })

/-- Model of `get_or_launch_session`: reuse a registered session whose
process is still running and whose age is under the timeout; otherwise
best-effort terminate (`termOk` oracle: whether `process.terminate()`
succeeded or raised into the bare `except`), pop the entry, and launch
fresh. -/
def get_or_launch_session (cfg : Config) (w : World) (container_id : String)
    (now freePort : Nat) (ready termOk : Bool) :
    Except String Session × World :=
  match lookupKey container_id w.sessions with
  | some session =>
    if session.pid ∈ w.alive ∧ now - session.started_at < cfg.sessionTimeout then
      (.ok session, w)
    else
      let w1 := if termOk then { w with termd := session.pid :: w.termd } else w
      let w2 := { w1 with sessions := eraseKey container_id w1.sessions }
      launch_ttyd cfg w2 container_id now freePort ready
  | none => launch_ttyd cfg w container_id now freePort ready

/-! ## Claims C4, C5, C6, C10: reuse, recycle, rollback, spawn command -/

/-- Configuration with the default `TTYD_PATH`, `TERMINAL_SHELL` and
`TERMINAL_SESSION_TIMEOUT` values. -/
def cfg0 : Config := ⟨"ttyd", "/bin/bash", 3600⟩

/-- C4: a registered session whose process is alive and whose age is under
`sessionTimeout` is returned unchanged, and the whole world — registry,
spawn log, `started_at`, terminate calls — is left untouched. -/
theorem c4_reuse_frame (cfg : Config) (w : World) (cid : String)
    (now freePort : Nat) (ready termOk : Bool) (s : Session)
    (hs : lookupKey cid w.sessions = some s)
    (halive : s.pid ∈ w.alive)
    (hfresh : now - s.started_at < cfg.sessionTimeout) :
    get_or_launch_session cfg w cid now freePort ready termOk = (.ok s, w) := by
  unfold get_or_launch_session
  rw [hs]
  simp [halive, hfresh]

/-- World with one live, fresh session used as the C4 witness input. -/
def c4World : World :=
  { sessions := [("c", ⟨1, 4000, 0⟩)], alive := [1], termd := [],
    procs := [(1, 4000)], cmds := [[]], nextPid := 2 }

/-- Witness for `c4_reuse_frame` on a concrete live fresh session. -/
theorem c4_reuse_frame_witness :
    get_or_launch_session cfg0 c4World "c" 10 4001 true true =
      (.ok ⟨1, 4000, 0⟩, c4World) :=
  c4_reuse_frame cfg0 c4World "c" 10 4001 true true ⟨1, 4000, 0⟩
    (by decide) (by decide) (by decide)

/-- World whose only session has a dead process, used against C5: with pid 1
not alive, its port 4000 is unbound, so the OS may hand port 4000 out
again. -/
def c5World : World :=
  { sessions := [("c", ⟨1, 4000, 0⟩)], alive := [], termd := [],
    procs := [(1, 4000)], cmds := [], nextPid := 2 }

/-- C5 counterexample: the claim requires the recycled session's port to
differ from the old one; but when the old process has died its port is free
again, `get_free_port` may legitimately return it (`validFreePort`), and the
new session then reuses the very same port 4000. -/
theorem c5_same_port_counterexample :
    lookupKey "c" c5World.sessions = some ⟨1, 4000, 0⟩
    ∧ (1 : Nat) ∉ c5World.alive
    ∧ validFreePort c5World 4000
    ∧ (get_or_launch_session cfg0 c5World "c" 10 4000 true true).1 =
        .ok ⟨2, 4000, 10⟩
    ∧ (⟨2, 4000, 10⟩ : Session).port = (⟨1, 4000, 0⟩ : Session).port :=
  ⟨by decide, by decide, by decide, rfl, rfl⟩

/-- C5 (amended): on a dead or expired session the next call best-effort
terminates the old process, removes the old entry (even when `terminate`
raises), and spawns a fresh process registered under the allocated port —
but that port is whatever the allocator returned and is not guaranteed to
differ from the old one (the old process may already have released it). -/
theorem c5_recycle_amended (cfg : Config) (w : World) (cid : String)
    (now fp : Nat) (termOk : Bool) (s : Session)
    (hs : lookupKey cid w.sessions = some s)
    (hstale : ¬ (s.pid ∈ w.alive ∧ now - s.started_at < cfg.sessionTimeout)) :
    (get_or_launch_session cfg w cid now fp true termOk).1 =
        .ok ⟨w.nextPid, fp, now⟩
    ∧ lookupKey cid
        (get_or_launch_session cfg w cid now fp true termOk).2.sessions =
        some ⟨w.nextPid, fp, now⟩
    ∧ (get_or_launch_session cfg w cid now fp true termOk).2.cmds =
        ttydCommand cfg fp cid :: w.cmds
    ∧ (get_or_launch_session cfg w cid now fp true termOk).2.nextPid =
        w.nextPid + 1
    ∧ (termOk = true →
        s.pid ∈ (get_or_launch_session cfg w cid now fp true termOk).2.termd)
    ∧ (termOk = false →
        (get_or_launch_session cfg w cid now fp true termOk).2.termd = w.termd) := by
  unfold get_or_launch_session
  rw [hs]
  cases termOk <;> simp [hstale, launch_ttyd, lookupKey_cons_self]

/-- Witness for `c5_recycle_amended`: an expired-but-alive session is
recycled. -/
theorem c5_recycle_amended_witness :
    (get_or_launch_session cfg0 c4World "c" 5000 4001 true true).1 =
        .ok ⟨2, 4001, 5000⟩
    ∧ lookupKey "c"
        (get_or_launch_session cfg0 c4World "c" 5000 4001 true true).2.sessions =
        some ⟨2, 4001, 5000⟩
    ∧ (get_or_launch_session cfg0 c4World "c" 5000 4001 true true).2.cmds =
        ttydCommand cfg0 4001 "c" :: [[]]
    ∧ (get_or_launch_session cfg0 c4World "c" 5000 4001 true true).2.nextPid = 3
    ∧ (true = true →
        (1 : Nat) ∈ (get_or_launch_session cfg0 c4World "c" 5000 4001 true true).2.termd)
    ∧ (true = false →
        (get_or_launch_session cfg0 c4World "c" 5000 4001 true true).2.termd = []) :=
  c5_recycle_amended cfg0 c4World "c" 5000 4001 true ⟨1, 4000, 0⟩
    (by decide) (by decide)

/-- C6: whenever the readiness wait times out (no reusable session exists,
so a launch is attempted, and `wait_for_port` returns false), the call
reports the launch failure, the freshly spawned process receives a
`terminate()`, and the registry holds no entry for the container — no
partial state survives. -/
theorem c6_rollback_on_launch_failure (cfg : Config) (w : World)
    (cid : String) (now fp : Nat) (termOk : Bool)
    (hnoreuse : ∀ s, lookupKey cid w.sessions = some s →
      ¬ (s.pid ∈ w.alive ∧ now - s.started_at < cfg.sessionTimeout)) :
    (get_or_launch_session cfg w cid now fp false termOk).1 =
        .error "Failed to start ttyd session"
    ∧ lookupKey cid
        (get_or_launch_session cfg w cid now fp false termOk).2.sessions = none
    ∧ w.nextPid ∈ (get_or_launch_session cfg w cid now fp false termOk).2.termd
    ∧ (get_or_launch_session cfg w cid now fp false termOk).2.cmds.length =
        w.cmds.length + 1 := by
  cases h : lookupKey cid w.sessions with
  | none =>
    simp [get_or_launch_session, h, launch_ttyd, lookupKey_eraseKey_self]
  | some s =>
    have hstale := hnoreuse s h
    unfold get_or_launch_session
    rw [h]
    cases termOk <;>
      simp [hstale, launch_ttyd, lookupKey_eraseKey_self]

/-- Witness for `c6_rollback_on_launch_failure` starting from an empty
registry. -/
theorem c6_rollback_witness :
    (get_or_launch_session cfg0
        ⟨[], [], [], [], [], 7⟩ "c" 10 4000 false true).1 =
        .error "Failed to start ttyd session"
    ∧ lookupKey "c"
        (get_or_launch_session cfg0
          ⟨[], [], [], [], [], 7⟩ "c" 10 4000 false true).2.sessions = none
    ∧ (7 : Nat) ∈ (get_or_launch_session cfg0
          ⟨[], [], [], [], [], 7⟩ "c" 10 4000 false true).2.termd
    ∧ (get_or_launch_session cfg0
          ⟨[], [], [], [], [], 7⟩ "c" 10 4000 false true).2.cmds.length =
        List.length ([] : List (List String)) + 1 :=
  c6_rollback_on_launch_failure cfg0 ⟨[], [], [], [], [], 7⟩ "c" 10 4000 true
    (by intro s hs; simp [lookupKey] at hs)

/-- C10: every spawn performed by `launch_ttyd` records exactly the argv
`[TTYD_PATH, "--port", str(port), "--once", "docker", "exec", "-it",
container_id, DEFAULT_SHELL]`, and that command always contains the
`"--once"` flag. -/
theorem c10_spawn_command (cfg : Config) (w : World) (cid : String)
    (now fp : Nat) (ready : Bool) :
    (launch_ttyd cfg w cid now fp ready).2.cmds =
        ttydCommand cfg fp cid :: w.cmds
    ∧ ttydCommand cfg fp cid =
        [cfg.ttydPath, "--port", toString fp, "--once", "docker", "exec",
          "-it", cid, cfg.shell]
    ∧ "--once" ∈ ttydCommand cfg fp cid := by
  refine ⟨?_, rfl, by simp [ttydCommand]⟩
  cases ready <;> simp [launch_ttyd, lookupKey_cons_self]

/-! ## Gateway handler (`terminal` route) -/

/-- HTTP outcomes of the `terminal` route: `abort(400)`, `abort(403)`,
`abort(404)`, `abort(500, msg)`, or `redirect(url, code=302)`. -/
inductive Resp where
  | badRequest : Resp
  | forbidden : Resp
  | notFound : Resp
  | serverError : String → Resp
  | redirect : String → Resp
deriving DecidableEq, Repr

/-- Python `request.host.split(":")[0]`. -/
def hostOnly (h : String) : String := (h.splitOn ":").headI

/-- Model of the `terminal` route handler. `tokenParam` is
`request.args.get("token")` (`none` when the parameter is absent, and note
that Python's `if not token` also catches the empty string). The container
runtime answer and the transport security flag are the oracles
`containerExists` and `isSecure`; the session-manager oracles are passed
through. Returns the response together with the resulting session world and
token store. -/
def terminal (cfg : Config) (w : World) (store : TokenStore)
    (container_id : String) (tokenParam : Option String)
    (now freePort : Nat) (ready termOk : Bool)
    (containerExists isSecure : Bool) (reqHost : String) :
    Resp × World × TokenStore :=
  if tokenParam = none ∨ tokenParam = some "" then (.badRequest, w, store)
  else
    match get_terminal_token store container_id now with
    | (none, store2) => (.forbidden, w, store2)
    | (some r, store2) =>
      if r.token ≠ tokenParam.getD "" then (.forbidden, w, store2)
      else if containerExists = false then (.notFound, w, store2)
      else
        match get_or_launch_session cfg w container_id now freePort ready termOk with
        | (.error msg, w2) => (.serverError msg, w2, store2)
        | (.ok s, w2) =>
          (.redirect ((if isSecure then "https" else "http") ++ "://" ++
              hostOnly reqHost ++ ":" ++ toString s.port), w2, store2)

/-! ## Claims C7 and C8: gateway status codes and existence-leak freedom -/

/-- Token store used in the gateway scenarios. -/
def c7Store : TokenStore := [("c", ⟨"s", 100⟩)]

/-- Empty session world used in the gateway scenarios. -/
def c7World : World := ⟨[], [], [], [], [], 1⟩

/-- C7 counterexample: the claim partitions responses with 400 exactly when
the token parameter is absent and 403 whenever validation fails. But for a
request carrying a **present but empty** token parameter (`?token=`), Python's
`if not token` fires and the code answers 400, although the parameter is not
absent and token validation (which fails for the empty secret) should per
the claim yield 403. -/
theorem c7_empty_token_counterexample :
    (terminal cfg0 c7World c7Store "c" (some "") 0 4000 true true true false
        "h:5000").1 = .badRequest
    ∧ (some "" : Option String) ≠ none
    ∧ (validate c7Store "c" "" 0).1 = false :=
  ⟨rfl, by decide, by decide⟩

/-- C7 (amended): the response is 400 when the token parameter is absent
**or empty**; 403 when a non-empty token is presented and validation fails;
404 when the token validates but the container-existence check fails; 500
with the error message when session creation fails; and a 302 redirect to
`scheme://host:port` on success, where `host` is the gateway's own host
stripped of its port and `port` is the session's port. -/
theorem c7_status_codes_amended (cfg : Config) (w : World)
    (store : TokenStore) (cid : String) (tokenParam : Option String)
    (now fp : Nat) (ready termOk ex sec : Bool) (host : String) :
    ((tokenParam = none ∨ tokenParam = some "") →
      (terminal cfg w store cid tokenParam now fp ready termOk ex sec host).1 =
        .badRequest)
    ∧ (∀ t, tokenParam = some t → t ≠ "" →
        (validate store cid t now).1 = false →
        (terminal cfg w store cid tokenParam now fp ready termOk ex sec host).1 =
          .forbidden)
    ∧ (∀ t, tokenParam = some t → t ≠ "" →
        (validate store cid t now).1 = true → ex = false →
        (terminal cfg w store cid tokenParam now fp ready termOk ex sec host).1 =
          .notFound)
    ∧ (∀ t, tokenParam = some t → t ≠ "" →
        (validate store cid t now).1 = true → ex = true →
        (∀ msg w2,
          get_or_launch_session cfg w cid now fp ready termOk = (.error msg, w2) →
          (terminal cfg w store cid tokenParam now fp ready termOk ex sec host).1 =
            .serverError msg)
        ∧ (∀ s w2,
          get_or_launch_session cfg w cid now fp ready termOk = (.ok s, w2) →
          (terminal cfg w store cid tokenParam now fp ready termOk ex sec host).1 =
            .redirect ((if sec then "https" else "http") ++ "://" ++
              hostOnly host ++ ":" ++ toString s.port))) := by
  refine ⟨?_, ?_, ?_, ?_⟩
  · intro h
    unfold terminal
    rw [if_pos h]
  · intro t ht hne hv
    subst ht
    have hcond : ¬(some t = none ∨ some t = some "") := by simp [hne]
    unfold terminal
    rw [if_neg hcond]
    rcases hg : get_terminal_token store cid now with ⟨o, store2⟩
    cases o with
    | none => simp
    | some r =>
      have hr : r.token ≠ t := by
        unfold validate at hv
        rw [hg] at hv
        simp at hv
        intro he
        simp [he] at hv
      simp [hr]
  · intro t ht hne hv hex
    subst ht
    subst hex
    have hcond : ¬(some t = none ∨ some t = some "") := by simp [hne]
    unfold terminal
    rw [if_neg hcond]
    rcases hg : get_terminal_token store cid now with ⟨o, store2⟩
    cases o with
    | none =>
      unfold validate at hv
      rw [hg] at hv
      simp at hv
    | some r =>
      have hr : r.token = t := by
        unfold validate at hv
        rw [hg] at hv
        by_contra he
        simp [he] at hv
      simp [hr]
  · intro t ht hne hv hex
    subst ht
    subst hex
    have hcond : ¬(some t = none ∨ some t = some "") := by simp [hne]
    constructor
    · intro msg w2 hl
      unfold terminal
      rw [if_neg hcond]
      rcases hg : get_terminal_token store cid now with ⟨o, store2⟩
      cases o with
      | none =>
        unfold validate at hv
        rw [hg] at hv
        simp at hv
      | some r =>
        have hr : r.token = t := by
          unfold validate at hv
          rw [hg] at hv
          by_contra he
          simp [he] at hv
        simp [hr, hl]
    · intro s w2 hl
      unfold terminal
      rw [if_neg hcond]
      rcases hg : get_terminal_token store cid now with ⟨o, store2⟩
      cases o with
      | none =>
        unfold validate at hv
        rw [hg] at hv
        simp at hv
      | some r =>
        have hr : r.token = t := by
          unfold validate at hv
          rw [hg] at hv
          by_contra he
          simp [he] at hv
        simp [hr, hl]

/-- Witness for `c7_status_codes_amended`: a wrong non-empty secret yields
403. -/
theorem c7_status_codes_amended_witness :
    (terminal cfg0 c7World c7Store "c" (some "wrong") 0 4000 true true true
        false "h:5000").1 = .forbidden :=
  (c7_status_codes_amended cfg0 c7World c7Store "c" (some "wrong") 0 4000
      true true true false "h:5000").2.1 "wrong" rfl (by decide) (by decide)

/-- C8: whenever authentication fails (token absent, empty, or failing
validation), the gateway's entire outcome — response, session world and
token store — is identical whether or not the container exists, and the
response is 400 or 403: unauthenticated callers learn nothing about
container existence. -/
theorem c8_no_existence_leak (cfg : Config) (w : World) (store : TokenStore)
    (cid : String) (tokenParam : Option String) (now fp : Nat)
    (ready termOk sec : Bool) (host : String)
    (hauth : tokenParam = none ∨ tokenParam = some "" ∨
      (validate store cid (tokenParam.getD "") now).1 = false) :
    terminal cfg w store cid tokenParam now fp ready termOk true sec host =
      terminal cfg w store cid tokenParam now fp ready termOk false sec host
    ∧ ((terminal cfg w store cid tokenParam now fp ready termOk true sec
          host).1 = .badRequest
      ∨ (terminal cfg w store cid tokenParam now fp ready termOk true sec
          host).1 = .forbidden) := by
  by_cases hbad : tokenParam = none ∨ tokenParam = some ""
  · constructor
    · unfold terminal
      rw [if_pos hbad, if_pos hbad]
    · left
      unfold terminal
      rw [if_pos hbad]
  · have hv : (validate store cid (tokenParam.getD "") now).1 = false := by
      rcases hauth with h | h | h
      · exact absurd (Or.inl h) hbad
      · exact absurd (Or.inr h) hbad
      · exact h
    unfold terminal
    rw [if_neg hbad, if_neg hbad]
    rcases hg : get_terminal_token store cid now with ⟨o, store2⟩
    cases o with
    | none => simp
    | some r =>
      have hr : r.token ≠ tokenParam.getD "" := by
        unfold validate at hv
        rw [hg] at hv
        by_contra he
        simp [he] at hv
      simp [hr]

/-- Witness for `c8_no_existence_leak` with an expired token. -/
theorem c8_no_existence_leak_witness :
    terminal cfg0 c7World [("c", ⟨"s", 3⟩)] "c" (some "s") 9 4000 true true
        true false "h:5000" =
      terminal cfg0 c7World [("c", ⟨"s", 3⟩)] "c" (some "s") 9 4000 true true
        false false "h:5000"
    ∧ ((terminal cfg0 c7World [("c", ⟨"s", 3⟩)] "c" (some "s") 9 4000 true
          true true false "h:5000").1 = .badRequest
      ∨ (terminal cfg0 c7World [("c", ⟨"s", 3⟩)] "c" (some "s") 9 4000 true
          true true false "h:5000").1 = .forbidden) :=
  c8_no_existence_leak cfg0 c7World [("c", ⟨"s", 3⟩)] "c" (some "s") 9 4000
    true true false "h:5000" (by right; right; decide)

/-! ## Interleaving semantics for `get_or_launch_session` (claims C1, C9)

The request path of `get_or_launch_session` performs a sequence of accesses
to the shared `active_sessions` dict and to OS state, with no lock; between
any two of them the GIL can be released (socket operations, `Popen`,
`wait_for_port` sleeps) and another thread can run. Each `threadStep` below
performs at most one access to the shared dict, matching one statement of
the source:

  pc 0: `session = active_sessions.get(container_id)`;
  pc 1: `process.poll() is None and now - started_at < SESSION_TIMEOUT`;
  pc 2: `process.terminate()` on the stale session;
  pc 3: `active_sessions.pop(container_id, None)`;
  pc 4: `port = get_free_port()` (thread's `freePort` oracle);
  pc 5: `subprocess.Popen(command)`;
  pc 6: `active_sessions[container_id] = {...}` and watcher-thread start;
  pc 7: `wait_for_port(port)` (thread's `ready` oracle), with rollback;
  pc 8: `return active_sessions[container_id]`;
  pc 9: finished.

A `_watch_session` thread is a pending `(container_id, pid)` pair; once its
process is no longer alive its `process.wait()` returns and it executes
`active_sessions.pop(container_id, None)`. -/

/-- Thread-local state of one `get_or_launch_session` call. -/
structure TS where
  pc : Nat
  sess : Option Session
  port : Nat
  pid : Nat
  result : Option (Except String Session)
  freePort : Nat
  ready : Bool
deriving Repr

/-- One execution step of a request thread. Returns the updated world,
thread state and watcher list. -/
def threadStep (cfg : Config) (cid : String) (now : Nat) (w : World)
    (t : TS) (ws : List (String × Nat)) :
    World × TS × List (String × Nat) :=
  match t.pc with
  | 0 =>
    match lookupKey cid w.sessions with
    | some s => (w, { t with pc := 1, sess := some s }, ws)
    | none => (w, { t with pc := 4 }, ws)
  | 1 =>
    match t.sess with
    | some s =>
      if s.pid ∈ w.alive ∧ now - s.started_at < cfg.sessionTimeout then
        (w, { t with pc := 9, result := some (.ok s) }, ws)
      else (w, { t with pc := 2 }, ws)
    | none => (w, { t with pc := 9 }, ws)
  | 2 =>
    match t.sess with
    | some s => ({ w with termd := s.pid :: w.termd }, { t with pc := 3 }, ws)
    | none => (w, { t with pc := 9 }, ws)
  | 3 =>
    ({ w with sessions := eraseKey cid w.sessions }, { t with pc := 4 }, ws)
  | 4 => (w, { t with pc := 5, port := t.freePort }, ws)
  | 5 =>
    ({ w with
        nextPid := w.nextPid + 1
        alive := w.nextPid :: w.alive
        procs := (w.nextPid, t.port) :: w.procs
        cmds := ttydCommand cfg t.port cid :: w.cmds },
      { t with pc := 6, pid := w.nextPid }, ws)
  | 6 =>
    ({ w with sessions :=
        (cid, ⟨t.pid, t.port, now⟩) :: eraseKey cid w.sessions },
      { t with pc := 7 }, (cid, t.pid) :: ws)
  | 7 =>
    if t.ready then (w, { t with pc := 8 }, ws)
    else
      ({ w with
          termd := t.pid :: w.termd
          sessions := eraseKey cid w.sessions },
        { t with
          pc := 9
          result := some (.error "Failed to start ttyd session") }, ws)
  | 8 =>
    match lookupKey cid w.sessions with
    | some s => (w, { t with pc := 9, result := some (.ok s) }, ws)
    | none => (w, { t with pc := 9, result := some (.error "KeyError") }, ws)
  | _ => (w, t, ws)

/-- A configuration: the shared world, two request threads, and the pending
exit watchers. -/
structure Conf where
  w : World
  tA : TS
  tB : TS
  watchers : List (String × Nat)
deriving Repr

/-- Scheduler labels: run thread A, thread B, or the exit watcher with the
given index. -/
inductive Lab where
  | A : Lab
  | B : Lab
  | W : Nat → Lab
deriving DecidableEq, Repr

/-- One scheduled step: a watcher step runs only when its process has
exited (`process.wait()` has returned); it then executes
`active_sessions.pop(container_id, None)` — popping by key, with no check
that the entry still belongs to the session it watched. -/
def stepConf (cfg : Config) (cid : String) (now : Nat) (c : Conf) :
    Lab → Conf
  | .A =>
    match threadStep cfg cid now c.w c.tA c.watchers with
    | (w, t, ws) => { c with w := w, tA := t, watchers := ws }
  | .B =>
    match threadStep cfg cid now c.w c.tB c.watchers with
    | (w, t, ws) => { c with w := w, tB := t, watchers := ws }
  | .W k =>
    match c.watchers.get? k with
    | some e =>
      if e.2 ∈ c.w.alive then c
      else
        { c with
          w := { c.w with sessions := eraseKey e.1 c.w.sessions },
          watchers := c.watchers.eraseIdx k }
    | none => c

/-- Run a schedule from a configuration. -/
def runConf (cfg : Config) (cid : String) (now : Nat) (c : Conf)
    (sched : List Lab) : Conf :=
  sched.foldl (stepConf cfg cid now) c

/-- Idle thread placeholder (already finished). -/
def idleTS : TS := ⟨9, none, 0, 0, none, 0, true⟩

/-- Fresh thread about to call `get_or_launch_session`, with the port its
`get_free_port` will obtain and the verdict its `wait_for_port` will see. -/
def newTS (fp : Nat) : TS := ⟨0, none, 0, 0, none, fp, true⟩

/-- Initial configuration for the C1 race: empty registry, two concurrent
requests for the same container. -/
def c1Conf : Conf :=
  ⟨⟨[], [], [], [], [], 1⟩, newTS 4000, newTS 4001, []⟩

/-- Schedule exhibiting the C1 race: both threads execute the registry
lookup (finding nothing) before either registers, which the code cannot
prevent because `get_or_launch_session` takes no lock and `get_free_port`,
`Popen` and `wait_for_port` all release the GIL. -/
def c1Sched : List Lab :=
  [.A, .B, .A, .A, .A, .A, .A, .B, .B, .B, .B, .B]

/-- C1: two concurrent `GetOrCreateSession` calls for the same container
can both find the registry empty, so the code spawns **two** ttyd processes
and the calls return **different** ports (4000 and 4001) — there is an
interleaving violating both halves of the at-most-one-session claim. -/
theorem c1_concurrent_calls_two_spawns :
    (runConf cfg0 "c" 10 c1Conf c1Sched).w.cmds.length = 2
    ∧ (runConf cfg0 "c" 10 c1Conf c1Sched).tA.result =
        some (.ok ⟨1, 4000, 10⟩)
    ∧ (runConf cfg0 "c" 10 c1Conf c1Sched).tB.result =
        some (.ok ⟨2, 4001, 10⟩)
    ∧ (⟨1, 4000, 10⟩ : Session).port ≠ (⟨2, 4001, 10⟩ : Session).port :=
  ⟨rfl, rfl, rfl, by decide⟩

/-- Initial configuration for the C9 race: container "c" has a registered
session whose process (pid 1, port 4000) has already exited; its exit
watcher is pending; one fresh request arrives. -/
def c9Conf : Conf :=
  ⟨⟨[("c", ⟨1, 4000, 0⟩)], [], [], [(1, 4000)], [], 2⟩,
    newTS 4001, idleTS, [("c", 1)]⟩

/-- The request thread runs to completion (recycling the dead session and
registering a fresh one) before the pending watcher of the dead process
gets scheduled. -/
def c9Sched : List Lab :=
  [.A, .A, .A, .A, .A, .A, .A, .A, .A]

/-- C9: the watcher of the dead session (pid 1) fires only after the
request thread has already replaced the entry with a new live session
(pid 2, port 4001); because `_watch_session` pops purely by container key,
it removes the **newer** session's entry: before the watcher step the
registry maps "c" to the new session, afterwards it has no entry for "c"
although process 2 is alive. -/
theorem c9_watcher_removes_newer_session :
    (runConf cfg0 "c" 10 c9Conf c9Sched).tA.result =
        some (.ok ⟨2, 4001, 10⟩)
    ∧ lookupKey "c" (runConf cfg0 "c" 10 c9Conf c9Sched).w.sessions =
        some ⟨2, 4001, 10⟩
    ∧ (runConf cfg0 "c" 10 c9Conf c9Sched).watchers.get? 1 = some ("c", 1)
    ∧ (1 : Nat) ∉ (runConf cfg0 "c" 10 c9Conf c9Sched).w.alive
    ∧ lookupKey "c"
        (stepConf cfg0 "c" 10 (runConf cfg0 "c" 10 c9Conf c9Sched)
          (.W 1)).w.sessions = none
    ∧ (2 : Nat) ∈
        (stepConf cfg0 "c" 10 (runConf cfg0 "c" 10 c9Conf c9Sched)
          (.W 1)).w.alive :=
  ⟨rfl, rfl, rfl, by decide, rfl, by decide⟩

end TerminalService
